import Mathlib

/-!
Shallow embedding of `pdf-efficient-loader` (`src/index.js`) for checking the
natural-language specification against the code.

The embedding translates the five exported drivers (`extractPdfData`,
`extractPdfDataStreaming`, `extractPdfStats`, `analyzePdfType`,
`extractPdfSmart`), the operator-list scanner `countGraphicsObjects`, the
dictionary-based per-page counter of `extractPdfSmart`, the page sampler of
`analyzePdfType`, the classifier, and the source loader `loadPdfData`.

Modelling conventions:
- The external pdfjs parser is a collaborator: a document is a list of page
  models whose fallible operations (`getPage`, `getTextContent`,
  `getOperatorList`) are `Except String` values; JavaScript exception
  propagation becomes early `Except.error` return.
- Extracted text is abstracted to its text-item count (no claim inspects the
  concatenated string contents).
- JavaScript numbers are modelled by `JsVal`: either NaN or an exact rational.
  Every quantity the code divides is non-negative, and the only division by
  zero the code can reach is `0 / 0` (averaging over an empty sample), whose
  JavaScript value is NaN; `jsAvg` maps exactly that case to `JsVal.nan`.
- `pdf.destroy()` is not modelled as an effect but counted: each driver
  returns a `RunOutcome` carrying the number of times the driver disposed the
  document it loaded.  The source has no try/finally, so an error thrown in a
  driver's body propagates past the trailing `await pdf.destroy()` line and
  the count is 0 on those paths.
-/

namespace PdfLoader

/-- Opcodes of the pdfjs operator list that `countGraphicsObjects` inspects
(`pdfjsLib.OPS.*` in `src/index.js`); `other` stands for any further opcode,
which the scanner ignores. -/
inductive Op where
  | paintImageXObject
  | paintInlineImageXObject
  | paintImageMaskXObject
  | stroke
  | fill
  | eoFill
  | fillStroke
  | eoFillStroke
  | closePath
  | rectangle
  | moveTo
  | lineTo
  | curveTo
  | curveTo2
  | curveTo3
  | constructPath
  | other
  deriving DecidableEq, Repr

/-- `IMAGE_OPS` of `countGraphicsObjects` (src/index.js lines 138-142). -/
def IMAGE_OPS : List Op :=
  [.paintImageXObject, .paintInlineImageXObject, .paintImageMaskXObject]

/-- `VECTOR_OPS` of `countGraphicsObjects` (src/index.js lines 145-159). -/
def VECTOR_OPS : List Op :=
  [.stroke, .fill, .eoFill, .fillStroke, .eoFillStroke, .closePath, .rectangle,
   .moveTo, .lineTo, .curveTo, .curveTo2, .curveTo3, .constructPath]

/-- The terminator list tested inline at src/index.js line 177. -/
def TERMINATORS : List Op := [.stroke, .fill, .eoFill, .fillStroke, .eoFillStroke]

/-- The PATH-SEGMENT opcode class of the spec (§4.1): the members of
`VECTOR_OPS` that are neither terminators nor `constructPath`. -/
def PATH_SEGMENTS : List Op :=
  [.closePath, .rectangle, .moveTo, .lineTo, .curveTo, .curveTo2, .curveTo3]

/-- Result of `countGraphicsObjects`. -/
structure GCounts where
  imageCount : Nat
  vectorCount : Nat
  deriving DecidableEq, Repr

/-- One iteration of the scan loop of `countGraphicsObjects`
(src/index.js lines 163-188).  State is `(imageCount, vectorCount,
inVectorSequence)`.  Note that the `constructPath` test (line 173) and the
terminator test (line 177) are two consecutive `if` statements in the source,
so after the `constructPath` branch runs, the terminator test's `else` branch
(line 183) still executes for the same opcode. -/
def countStep (st : Nat × Nat × Bool) (op : Op) : Nat × Nat × Bool :=
  if op ∈ IMAGE_OPS then
    (st.1 + 1, st.2.1, false)
  else if op ∈ VECTOR_OPS then
    let vcSeq : Nat × Bool :=
      if op = Op.constructPath then (st.2.1 + 1, false) else (st.2.1, st.2.2)
    if op ∈ TERMINATORS then
      if vcSeq.2 then (st.1, vcSeq.1 + 1, false) else (st.1, vcSeq.1, vcSeq.2)
    else
      (st.1, vcSeq.1, true)
  else
    st

/-- `countGraphicsObjects` (src/index.js lines 131-196): scan the operator
list once; if the vector sequence is still open at end of stream, count it
once (lines 191-193). -/
def countGraphicsObjects (fnArray : List Op) : GCounts :=
  let st := fnArray.foldl countStep (0, 0, false)
  { imageCount := st.1, vectorCount := if st.2.2 then st.2.1 + 1 else st.2.1 }

/-- JavaScript number abstraction: NaN or an exact rational.  Rounding of
IEEE doubles is abstracted away (all spec formulas are exact); NaN handling
is preserved because it decides the `samplePages = 0` behaviour. -/
inductive JsVal where
  | nan
  | num (q : ℚ)
  deriving DecidableEq, Repr

/-- JS `x < c` (false when `x` is NaN). -/
def jsLt : JsVal → ℚ → Bool
  | .nan, _ => false
  | .num a, c => a < c

/-- JS `x > c` (false when `x` is NaN). -/
def jsGtQ : JsVal → ℚ → Bool
  | .nan, _ => false
  | .num a, c => c < a

/-- JS `x <= c` (false when `x` is NaN). -/
def jsLe : JsVal → ℚ → Bool
  | .nan, _ => false
  | .num a, c => a ≤ c

/-- JS `x === c` for a number literal `c` (false when `x` is NaN). -/
def jsEqQ : JsVal → ℚ → Bool
  | .nan, _ => false
  | .num a, c => a = c

/-- JS `x / c` for a nonzero constant `c` (NaN propagates). -/
def jsDivC : JsVal → ℚ → JsVal
  | .nan, _ => .nan
  | .num a, c => .num (a / c)

/-- JS `x * c` (NaN propagates; only nonzero constants occur). -/
def jsMulC : JsVal → ℚ → JsVal
  | .nan, _ => .nan
  | .num a, c => .num (a * c)

/-- JS `c + x` (NaN propagates). -/
def jsAddL : ℚ → JsVal → JsVal
  | _, .nan => .nan
  | c, .num a => .num (c + a)

/-- JS `Math.min(c, x)`: NaN when `x` is NaN. -/
def jsMin : ℚ → JsVal → JsVal
  | _, .nan => .nan
  | c, .num a => .num (min c a)

/-- JS `Math.round(x)` = `⌊x + 1/2⌋` on numbers; NaN propagates. -/
def jsRound : JsVal → JsVal
  | .nan => .nan
  | .num a => .num ((⌊a + 1/2⌋ : ℤ) : ℚ)

/-- JS `parseFloat(x.toFixed(2))`: rounding to two decimals, exact on the
non-negative rationals that occur here; NaN propagates. -/
def jsToFixed2 : JsVal → JsVal
  | .nan => .nan
  | .num a => .num (((⌊a * 100 + 1/2⌋ : ℤ) : ℚ) / 100)

/-- JS average `total / count` over the sampled pages.  A zero `count` only
occurs with a zero `total` (the accumulating loop ran zero times), and JS
`0 / 0` is NaN; `jsAvg` maps the whole `count = 0` case to `JsVal.nan`. -/
def jsAvg (total count : Nat) : JsVal :=
  if count = 0 then .nan else .num ((total : ℚ) / (count : ℚ))

/-- Document type labels ('scan' | 'vector' | 'text'). -/
inductive PdfType where
  | scan
  | vector
  | text
  deriving DecidableEq, Repr

/-- The classification decision of `analyzePdfType`
(src/index.js lines 499-519), evaluated over the three per-page averages. -/
def classifyJs (avgText avgImages avgVectors : JsVal) : PdfType × JsVal :=
  if jsLt avgText 30 && jsGtQ avgImages 0 && jsLe avgImages 100 then
    (.scan, jsMin (95/100) (jsAddL (7/10) (jsMulC (jsDivC avgImages 100) (25/100))))
  else if jsLt avgText 30 && jsEqQ avgImages 0 && jsGtQ avgVectors 0 then
    (.vector, jsMin (9/10) (jsAddL (7/10) (jsMulC (jsDivC avgVectors 10) (2/10))))
  else
    (.text, jsMin (9/10) (jsAddL (6/10) (jsMulC (jsDivC avgText 100) (3/10))))

/-- `Math.min(samplePages, pdf.numPages)` (src/index.js line 417). -/
def pagesToAnalyze (totalPages sampleSize : Nat) : Nat := min sampleSize totalPages

/-- `Math.max(1, Math.floor(pdf.numPages / pagesToAnalyze))`
(src/index.js line 418).  When `pagesToAnalyze = 0` JS evaluates to Infinity
while Nat division gives `max 1 0 = 1`; the value is immaterial in that case,
because the sampling range below is empty. -/
def sampleStep (totalPages sampleSize : Nat) : Nat :=
  max 1 (totalPages / pagesToAnalyze totalPages sampleSize)

/-- The 1-based page indices visited by the sampling loop of `analyzePdfType`
(src/index.js lines 420-421): `Math.min(1 + i * step, pdf.numPages)` for
`i` in `0 .. pagesToAnalyze - 1`. -/
def samplePageIndices (totalPages sampleSize : Nat) : List Nat :=
  (List.range (pagesToAnalyze totalPages sampleSize)).map
    (fun i => min (1 + i * sampleStep totalPages sampleSize) totalPages)

/-- Declared `Subtype` of an XObject resource entry. -/
inductive XSubtype where
  | image
  | form
  | otherSubtype
  deriving DecidableEq, Repr

/-- One resolvable XObject entry: its optional declared subtype and (for
images) `Width`/`Height` with the source's `|| 0` default applied. -/
structure XObjEntry where
  subtype : Option XSubtype
  width : Nat
  height : Nat
  deriving DecidableEq, Repr

/-- A page's resource dictionary as the code reads it.
`xobjects = none` models `resources.get('XObject')` being absent (or lacking
`getKeys`); an `Except.error` entry models `xobjects.get(key)` throwing for
that key (caught per entry in the source).  `patternCount`/`shadingCount`
are `getKeys().length` of the `Pattern`/`Shading` sub-dictionaries when
present. -/
structure ResourcesModel where
  xobjects : Option (List (Except String XObjEntry))
  patternCount : Option Nat
  shadingCount : Option Nat

/-- One page of the parsed document: the outcome of `pdf.getPage`
(`load`), of `page.getTextContent` (abstracted to the item count), of
`page.getOperatorList` (the `fnArray`), and the resource dictionary reached
through `page._pageDict?.get('Resources')`. -/
structure PageModel where
  load : Except String Unit
  textItemCount : Except String Nat
  opList : Except String (List Op)
  resources : Option ResourcesModel

/-- The loaded document: `pdf.numPages` is `pages.length`. -/
structure DocModel where
  pages : List PageModel

/-- `pdf.getPage(pageNum)` (1-based). -/
def getPage (doc : DocModel) (pageNum : Nat) : Except String PageModel :=
  match doc.pages[pageNum - 1]? with
  | none => .error "Invalid page request"
  | some p =>
    match p.load with
    | .error e => .error e
    | .ok _ => .ok p

/-- One XObject entry of the dictionary-based counter of `extractPdfSmart`
(src/index.js lines 610-622): a throwing lookup is caught and contributes
nothing; subtype `Image` increments the image count, `Form` the vector
count. -/
def dictEntryStep (acc : Nat × Nat) (e : Except String XObjEntry) : Nat × Nat :=
  match e with
  | .error _ => acc
  | .ok x =>
    match x.subtype with
    | some .image => (acc.1 + 1, acc.2)
    | some .form => (acc.1, acc.2 + 1)
    | _ => acc

/-- The per-page dictionary-based counting of `extractPdfSmart`
(src/index.js lines 601-635): classify the XObject entries, then add the
number of `Pattern` and `Shading` keys to the vector count.  Returns
`(imageCount, vectorCount)` contributed by the page. -/
def countDictionaryPage (res : Option ResourcesModel) : Nat × Nat :=
  match res with
  | none => (0, 0)
  | some r =>
    let xo : Nat × Nat :=
      match r.xobjects with
      | none => (0, 0)
      | some entries => entries.foldl dictEntryStep (0, 0)
    (xo.1, xo.2 + r.patternCount.getD 0 + r.shadingCount.getD 0)

/-- Whole-document totals of the dictionary-based strategy: image count. -/
def dictImagesTotal (doc : DocModel) : Nat :=
  (doc.pages.map (fun p => (countDictionaryPage p.resources).1)).sum

/-- Whole-document totals of the dictionary-based strategy: vector count. -/
def dictVectorsTotal (doc : DocModel) : Nat :=
  (doc.pages.map (fun p => (countDictionaryPage p.resources).2)).sum

/-- The large-image test of `analyzePdfType` (src/index.js lines 448-471),
evaluated when the page's stream produced at least one image: scan the
XObject entries for a declared image wider and taller than 1000 (a throwing
entry lookup is caught and skipped, line 466); if the page exposes no XObject
dictionary the page is flagged as a conservative fallback (lines 468-471). -/
def largeImageFlag (res : Option ResourcesModel) : Bool :=
  match res with
  | none => true
  | some r =>
    match r.xobjects with
    | none => true
    | some entries =>
      entries.any (fun e =>
        match e with
        | .error _ => false
        | .ok x => x.subtype == some .image && 1000 < x.width && 1000 < x.height)

/-- Outcome of one driver call: the value or propagated error, together with
the number of times the driver disposed the document it loaded
(`await pdf.destroy()`). -/
structure RunOutcome (α : Type) where
  result : Except String α
  destroys : Nat

/-- The page loop of `extractPdfData` (src/index.js lines 82-114):
accumulates `(textItems, imageCount, vectorCount)`; any page failure
propagates. -/
def extractDataLoop : List PageModel → Nat → Nat → Nat → Except String (Nat × Nat × Nat)
  | [], t, i, v => .ok (t, i, v)
  | p :: rest, t, i, v =>
    match p.load with
    | .error e => .error e
    | .ok _ =>
      match p.textItemCount with
      | .error e => .error e
      | .ok pt =>
        match p.opList with
        | .error e => .error e
        | .ok ops =>
          let c := countGraphicsObjects ops
          extractDataLoop rest (t + pt) (i + c.imageCount) (v + c.vectorCount)

/-- `extractPdfData` after the document is loaded (src/index.js lines 75-124).
No try/finally: a failure propagates past `pdf.destroy()`. -/
def extractPdfDataRun (doc : DocModel) : RunOutcome (Nat × Nat × Nat) :=
  match extractDataLoop doc.pages 0 0 0 with
  | .error e => ⟨.error e, 0⟩
  | .ok r => ⟨.ok r, 1⟩

/-- Payload of the `onPageProcessed` callback (src/index.js lines 262-267). -/
structure PageInfo where
  pageNum : Nat
  totalPages : Nat
  currentImages : Nat
  currentVectors : Nat

/-- Invoke an optional callback; a throwing callback is an `Except.error`. -/
def callPageCb (cb : Option (PageInfo → Except String Unit)) (info : PageInfo) :
    Except String Unit :=
  match cb with
  | none => .ok ()
  | some f => f info

/-- The page loop of `extractPdfDataStreaming` (src/index.js lines 233-269):
text extraction is skipped when `extractText` is false, and the
`onPageProcessed` callback runs after each page; a throwing callback
propagates. -/
def streamingLoop (tot : Nat) (cb : Option (PageInfo → Except String Unit))
    (extractText : Bool) :
    List PageModel → Nat → Nat → Nat → Nat → Except String (Nat × Nat × Nat)
  | [], _, t, i, v => .ok (t, i, v)
  | p :: rest, n, t, i, v =>
    match p.load with
    | .error e => .error e
    | .ok _ =>
      match (if extractText then p.textItemCount else .ok 0) with
      | .error e => .error e
      | .ok pt =>
        match p.opList with
        | .error e => .error e
        | .ok ops =>
          let c := countGraphicsObjects ops
          match callPageCb cb ⟨n, tot, c.imageCount, c.vectorCount⟩ with
          | .error e => .error e
          | .ok _ => streamingLoop tot cb extractText rest (n + 1) (t + pt)
              (i + c.imageCount) (v + c.vectorCount)

/-- `extractPdfDataStreaming` after the document is loaded
(src/index.js lines 227-278). -/
def extractPdfDataStreamingRun (doc : DocModel)
    (cb : Option (PageInfo → Except String Unit)) (extractText : Bool) :
    RunOutcome (Nat × Nat × Nat) :=
  match streamingLoop doc.pages.length cb extractText doc.pages 1 0 0 0 with
  | .error e => ⟨.error e, 0⟩
  | .ok r => ⟨.ok r, 1⟩

/-- The page loop of `extractPdfStats` (src/index.js lines 319-366), the same
shape as the streaming loop (the differing rendering intent and the advisory
GC hint have no observable effect in the model). -/
def statsLoop (tot : Nat) (cb : Option (PageInfo → Except String Unit))
    (extractText : Bool) :
    List PageModel → Nat → Nat → Nat → Nat → Except String (Nat × Nat × Nat)
  | [], _, t, i, v => .ok (t, i, v)
  | p :: rest, n, t, i, v =>
    match p.load with
    | .error e => .error e
    | .ok _ =>
      match (if extractText then p.textItemCount else .ok 0) with
      | .error e => .error e
      | .ok pt =>
        match p.opList with
        | .error e => .error e
        | .ok ops =>
          let c := countGraphicsObjects ops
          match callPageCb cb ⟨n, tot, c.imageCount, c.vectorCount⟩ with
          | .error e => .error e
          | .ok _ => statsLoop tot cb extractText rest (n + 1) (t + pt)
              (i + c.imageCount) (v + c.vectorCount)

/-- `extractPdfStats` after the document is loaded
(src/index.js lines 313-376): returns `(text, images, vectors, pages)`. -/
def extractPdfStatsRun (doc : DocModel)
    (cb : Option (PageInfo → Except String Unit)) (extractText : Bool) :
    RunOutcome (Nat × Nat × Nat × Nat) :=
  match statsLoop doc.pages.length cb extractText doc.pages 1 0 0 0 with
  | .error e => ⟨.error e, 0⟩
  | .ok (t, i, v) => ⟨.ok (t, i, v, doc.pages.length), 1⟩

/-- One sampled page of `analyzePdfType` (src/index.js lines 420-488):
`getPage` and `getTextContent` failures propagate (they are outside the try
block), while a `getOperatorList` failure is swallowed by the
`try { } catch (e) { }` of lines 434-481 and the page contributes zero
operator-list counts.  Returns `(textItems, images, vectors, largeFlag)`. -/
def analyzePage (p : PageModel) : Except String (Nat × Nat × Nat × Bool) :=
  match p.textItemCount with
  | .error e => .error e
  | .ok pt =>
    match p.opList with
    | .error _ => .ok (pt, 0, 0, false)
    | .ok ops =>
      let c := countGraphicsObjects ops
      .ok (pt, c.imageCount, c.vectorCount,
        decide (0 < c.imageCount) && largeImageFlag p.resources)

/-- The sampling loop of `analyzePdfType` over the chosen page indices;
accumulates `(text, images, vectors, pagesWithLargeImages)`. -/
def analyzeLoop (doc : DocModel) :
    List Nat → Nat → Nat → Nat → Nat → Except String (Nat × Nat × Nat × Nat)
  | [], t, i, v, g => .ok (t, i, v, g)
  | idx :: rest, t, i, v, g =>
    match getPage doc idx with
    | .error e => .error e
    | .ok p =>
      match analyzePage p with
      | .error e => .error e
      | .ok (pt, pi, pv, flag) =>
        analyzeLoop doc rest (t + pt) (i + pi) (v + pv) (g + if flag then 1 else 0)

/-- `stats` object of the analysis result (src/index.js lines 524-533). -/
structure TypeStats where
  totalPages : Nat
  sampledPages : Nat
  avgImagesPerPage : JsVal
  avgVectorsPerPage : JsVal
  avgTextItemsPerPage : JsVal
  largeImageRatio : JsVal
  estimatedTotalImages : JsVal
  estimatedTotalVectors : JsVal
  deriving DecidableEq, Repr

/-- Result of `analyzePdfType`. -/
structure TypeAnalysis where
  type : PdfType
  confidence : JsVal
  stats : TypeStats
  deriving DecidableEq, Repr

/-- Assembling the classification and statistics of `analyzePdfType` from the
accumulated sample totals (src/index.js lines 493-534). -/
def buildAnalysis (numPages sampled : Nat) (tot : Nat × Nat × Nat × Nat) :
    TypeAnalysis :=
  let avgI := jsAvg tot.2.1 sampled
  let avgT := jsAvg tot.1 sampled
  let avgV := jsAvg tot.2.2.1 sampled
  let ratio := jsAvg tot.2.2.2 sampled
  let tc := classifyJs avgT avgI avgV
  { type := tc.1
    confidence := tc.2
    stats :=
      { totalPages := numPages
        sampledPages := sampled
        avgImagesPerPage := jsToFixed2 avgI
        avgVectorsPerPage := jsToFixed2 avgV
        avgTextItemsPerPage := jsToFixed2 avgT
        largeImageRatio := jsToFixed2 ratio
        estimatedTotalImages := jsRound (jsMulC avgI (numPages : ℚ))
        estimatedTotalVectors := jsRound (jsMulC avgV (numPages : ℚ)) } }

/-- `analyzePdfType` after the document is loaded
(src/index.js lines 409-535). -/
def analyzePdfTypeRun (doc : DocModel) (samplePages : Nat) :
    RunOutcome TypeAnalysis :=
  let sampled := pagesToAnalyze doc.pages.length samplePages
  match analyzeLoop doc (samplePageIndices doc.pages.length samplePages) 0 0 0 0 with
  | .error e => ⟨.error e, 0⟩
  | .ok tot => ⟨.ok (buildAnalysis doc.pages.length sampled tot), 1⟩

/-- Payload of the `onProgress` callback of `extractPdfSmart`. -/
inductive ProgressStage where
  | analyzing
  | analyzed (t : PdfType) (confidence : JsVal)
  | extracting (currentPage totalPages : Nat)

/-- Invoke an optional progress callback. -/
def callProgress (cb : Option (ProgressStage → Except String Unit))
    (s : ProgressStage) : Except String Unit :=
  match cb with
  | none => .ok ()
  | some f => f s

/-- The full-document loop of `extractPdfSmart` (src/index.js lines 589-652):
text extraction, dictionary-based counting (never the operator list), then
the `extracting` progress event. -/
def smartLoop (tot : Nat) (cb : Option (ProgressStage → Except String Unit)) :
    List PageModel → Nat → Nat → Nat → Nat → Except String (Nat × Nat × Nat)
  | [], _, t, i, v => .ok (t, i, v)
  | p :: rest, n, t, i, v =>
    match p.load with
    | .error e => .error e
    | .ok _ =>
      match p.textItemCount with
      | .error e => .error e
      | .ok pt =>
        let c := countDictionaryPage p.resources
        match callProgress cb (.extracting n tot) with
        | .error e => .error e
        | .ok _ => smartLoop tot cb rest (n + 1) (t + pt) (i + c.1) (v + c.2)

/-- Result of `extractPdfSmart` (text abstracted to its item count). -/
structure SmartResult where
  textItems : Nat
  imageCount : Nat
  vectorCount : Nat
  pages : Nat
  pdfType : PdfType
  confidence : JsVal
  deriving DecidableEq, Repr

/-- The supported byte sources.  `uint8array` is a plain `Uint8Array` that is
not a Node.js `Buffer`. -/
inductive PdfSource where
  | path (p : String)
  | buffer (bytes : List Nat)
  | uint8array (bytes : List Nat)

/-- The message thrown by the final else branch of `loadPdfData`. -/
def invalidSourceMsg : String :=
  "Invalid source: must be a file path (string), Buffer, or Uint8Array"

/-- The file system collaborator (`fs.readFileSync`). -/
abbrev FsRead := String → Except String (List Nat)

/-- The document parser collaborator (`pdfjsLib.getDocument(...).promise`). -/
abbrev GetDoc := List Nat → Except String DocModel

/-- `loadPdfData` (src/index.js lines 32-42): handles a string path and a
Buffer, and throws `invalidSourceMsg` in the final else branch, which is
where a plain `Uint8Array` lands (the `instanceof Buffer` test rejects it). -/
def loadPdfData (fsRead : FsRead) : PdfSource → Except String (List Nat)
  | .path p => fsRead p
  | .buffer b => .ok b
  | .uint8array _ => .error invalidSourceMsg

/-- A one-page document whose `page.getTextContent` throws. -/
def docTextFails : DocModel :=
  ⟨[⟨.ok (), .error "boom", .ok [], none⟩]⟩

/-- A one-page document whose `page.getOperatorList` throws while loading and
text extraction succeed. -/
def docOpsFail : DocModel :=
  ⟨[⟨.ok (), .ok 0, .error "ops-fail", none⟩]⟩

/-- A clean one-page document with no text items and no graphics. -/
def docEmptyPage : DocModel :=
  ⟨[⟨.ok (), .ok 0, .ok [], none⟩]⟩

/-- The `extractPdfData` entry point: load bytes, parse the document, run. -/
def extractPdfDataEntry (fsRead : FsRead) (getDocument : GetDoc)
    (src : PdfSource) : RunOutcome (Nat × Nat × Nat) :=
  match loadPdfData fsRead src with
  | .error e => ⟨.error e, 0⟩
  | .ok data =>
    match getDocument data with
    | .error e => ⟨.error e, 0⟩
    | .ok doc => extractPdfDataRun doc

/-- The `extractPdfDataStreaming` entry point. -/
def extractPdfDataStreamingEntry (fsRead : FsRead) (getDocument : GetDoc)
    (src : PdfSource) (cb : Option (PageInfo → Except String Unit))
    (extractText : Bool) : RunOutcome (Nat × Nat × Nat) :=
  match loadPdfData fsRead src with
  | .error e => ⟨.error e, 0⟩
  | .ok data =>
    match getDocument data with
    | .error e => ⟨.error e, 0⟩
    | .ok doc => extractPdfDataStreamingRun doc cb extractText

/-- The `extractPdfStats` entry point. -/
def extractPdfStatsEntry (fsRead : FsRead) (getDocument : GetDoc)
    (src : PdfSource) (cb : Option (PageInfo → Except String Unit))
    (extractText : Bool) : RunOutcome (Nat × Nat × Nat × Nat) :=
  match loadPdfData fsRead src with
  | .error e => ⟨.error e, 0⟩
  | .ok data =>
    match getDocument data with
    | .error e => ⟨.error e, 0⟩
    | .ok doc => extractPdfStatsRun doc cb extractText

/-- The `analyzePdfType` entry point. -/
def analyzePdfTypeEntry (fsRead : FsRead) (getDocument : GetDoc)
    (src : PdfSource) (samplePages : Nat) : RunOutcome TypeAnalysis :=
  match loadPdfData fsRead src with
  | .error e => ⟨.error e, 0⟩
  | .ok data =>
    match getDocument data with
    | .error e => ⟨.error e, 0⟩
    | .ok doc => analyzePdfTypeRun doc samplePages

/-- The `extractPdfSmart` entry point (src/index.js lines 545-664): the
`analyzing` progress event, the nested `analyzePdfType` over a fixed 5-page
sample (it loads and disposes its own document), the `analyzed` event, then
its own document load and the dictionary-based full pass.  `destroys` counts
the disposal of the full-pass document only; the nested analysis accounts for
its own document through `analyzePdfTypeEntry`. -/
def extractPdfSmartEntry (fsRead : FsRead) (getDocument : GetDoc)
    (src : PdfSource) (cb : Option (ProgressStage → Except String Unit)) :
    RunOutcome SmartResult :=
  match callProgress cb .analyzing with
  | .error e => ⟨.error e, 0⟩
  | .ok _ =>
    match (analyzePdfTypeEntry fsRead getDocument src 5).result with
    | .error e => ⟨.error e, 0⟩
    | .ok analysis =>
      match callProgress cb (.analyzed analysis.type analysis.confidence) with
      | .error e => ⟨.error e, 0⟩
      | .ok _ =>
        match loadPdfData fsRead src with
        | .error e => ⟨.error e, 0⟩
        | .ok data =>
          match getDocument data with
          | .error e => ⟨.error e, 0⟩
          | .ok doc =>
            match smartLoop doc.pages.length cb doc.pages 1 0 0 0 with
            | .error e => ⟨.error e, 0⟩
            | .ok (t, i, v) =>
              ⟨.ok { textItems := t, imageCount := i, vectorCount := v,
                     pages := doc.pages.length, pdfType := analysis.type,
                     confidence := analysis.confidence }, 1⟩

/-- Concrete file-system collaborator for closed instances. -/
def fsReadStub : FsRead := fun _ => .ok []

/-- Concrete parser collaborator for closed instances. -/
def getDocStub : GetDoc := fun _ => .ok docEmptyPage

/-! ## Helper lemmas -/

theorem exceptOk_exists {α : Type} {e : Except String α} (h : e.isOk = true) :
    ∃ a, e = .ok a := by
  cases e with
  | error _ => simp [Except.isOk, Except.toBool] at h
  | ok a => exact ⟨a, rfl⟩

/-- A path-segment opcode only sets the open-sequence flag. -/
theorem countStep_pathSegment {op : Op} (h : op ∈ PATH_SEGMENTS)
    (i v : Nat) (b : Bool) : countStep (i, v, b) op = (i, v, true) := by
  fin_cases h <;> rfl

/-- A terminator closes an open sequence (counting it once) and is a no-op on
a closed one. -/
theorem countStep_terminator {op : Op} (h : op ∈ TERMINATORS) (i v : Nat) :
    countStep (i, v, true) op = (i, v + 1, false) ∧
    countStep (i, v, false) op = (i, v, false) := by
  fin_cases h <;> exact ⟨rfl, rfl⟩

/-- Scanning any block of path-segment opcodes only raises the flag. -/
theorem foldl_pathSegments (segs : List Op)
    (h : ∀ op ∈ segs, op ∈ PATH_SEGMENTS) (i v : Nat) (b : Bool) :
    segs.foldl countStep (i, v, b) = (i, v, b || !segs.isEmpty) := by
  induction segs generalizing b with
  | nil => simp
  | cons a rest ih =>
    rw [List.foldl_cons, countStep_pathSegment (h a (by simp)) i v b,
      ih (fun op hop => h op (List.mem_cons_of_mem _ hop)) true]
    simp

/-- The dictionary fold counts the resolvable Image and Form entries. -/
theorem foldl_dictEntryStep (entries : List (Except String XObjEntry)) :
    ∀ a b : Nat, entries.foldl dictEntryStep (a, b) =
      (a + entries.countP (fun e =>
          match e with
          | .ok x => x.subtype == some XSubtype.image
          | .error _ => false),
       b + entries.countP (fun e =>
          match e with
          | .ok x => x.subtype == some XSubtype.form
          | .error _ => false)) := by
  induction entries with
  | nil => intro a b; simp
  | cons e rest ih =>
    intro a b
    rw [List.foldl_cons]
    rcases e with msg | x
    · rw [show dictEntryStep (a, b) (.error msg) = (a, b) from rfl, ih]
      simp [List.countP_cons]
    · rcases hx : x.subtype with _ | s
      · have : dictEntryStep (a, b) (.ok x) = (a, b) := by
          simp [dictEntryStep, hx]
        rw [this, ih]
        simp [List.countP_cons, hx]
      · cases s with
        | image =>
          have : dictEntryStep (a, b) (.ok x) = (a + 1, b) := by
            simp [dictEntryStep, hx]
          rw [this, ih]
          simp [List.countP_cons, hx]
          omega
        | form =>
          have : dictEntryStep (a, b) (.ok x) = (a, b + 1) := by
            simp [dictEntryStep, hx]
          rw [this, ih]
          simp [List.countP_cons, hx]
          omega
        | otherSubtype =>
          have : dictEntryStep (a, b) (.ok x) = (a, b) := by
            simp [dictEntryStep, hx]
          rw [this, ih]
          simp [List.countP_cons, hx]

theorem samplePageIndices_length (T s : Nat) :
    (samplePageIndices T s).length = min s T := by
  simp [samplePageIndices, pagesToAnalyze]

theorem samplePageIndices_getElem (T s : Nat) (i : Nat)
    (h : i < (samplePageIndices T s).length) :
    (samplePageIndices T s)[i] = min (1 + i * sampleStep T s) T := by
  simp [samplePageIndices]

/-- Every emitted index is between 1 and `totalPages`. -/
theorem samplePageIndices_bounds (T s : Nat) :
    ∀ x ∈ samplePageIndices T s, 1 ≤ x ∧ x ≤ T := by
  intro x hx
  simp only [samplePageIndices, List.mem_map, List.mem_range] at hx
  obtain ⟨i, hi, rfl⟩ := hx
  have hT : 1 ≤ T := by
    rcases Nat.eq_zero_or_pos T with h0 | h1
    · simp [pagesToAnalyze, h0] at hi
    · exact h1
  exact ⟨le_min (Nat.le_add_right 1 _) hT, min_le_right _ _⟩

/-- When `totalPages ≥ sampleSize ≥ 1`, the clamp `min (1 + i*step) T` never
fires: every raw index stays within the document. -/
theorem sampleIndex_no_clamp {T s : Nat} (hs : 1 ≤ s) (hsT : s ≤ T)
    {i : Nat} (hi : i < pagesToAnalyze T s) :
    1 + i * sampleStep T s ≤ T := by
  have hn : pagesToAnalyze T s = s := by
    simp [pagesToAnalyze, Nat.min_eq_left hsT]
  have hq1 : 1 ≤ T / s := (Nat.one_le_div_iff (by omega)).mpr hsT
  have hstep : sampleStep T s = T / s := by
    simp [sampleStep, hn, Nat.max_eq_right hq1]
  obtain ⟨u, rfl⟩ : ∃ u, s = u + 1 := ⟨s - 1, by omega⟩
  rw [hstep]
  have hiu : i ≤ u := by omega
  have h1 : i * (T / (u + 1)) ≤ u * (T / (u + 1)) :=
    Nat.mul_le_mul_right _ hiu
  have h2 : (u + 1) * (T / (u + 1)) ≤ T := Nat.mul_div_le T (u + 1)
  have h3 : u * (T / (u + 1)) + T / (u + 1) = (u + 1) * (T / (u + 1)) := by ring
  omega

/-- Strict monotonicity of the emitted indices when `totalPages ≥ sampleSize`. -/
theorem samplePageIndices_pairwise {T s : Nat} (hs : 1 ≤ s) (hsT : s ≤ T) :
    (samplePageIndices T s).Pairwise (· < ·) := by
  rw [List.pairwise_iff_getElem]
  intro i j hi hj hij
  rw [samplePageIndices_getElem, samplePageIndices_getElem]
  have hlen : (samplePageIndices T s).length = pagesToAnalyze T s := by
    simp [samplePageIndices]
  have hci : 1 + i * sampleStep T s ≤ T :=
    sampleIndex_no_clamp hs hsT (by omega)
  have hcj : 1 + j * sampleStep T s ≤ T :=
    sampleIndex_no_clamp hs hsT (by omega)
  rw [Nat.min_eq_left hci, Nat.min_eq_left hcj]
  have hstep : 1 ≤ sampleStep T s := le_max_left 1 _
  have : i * sampleStep T s < j * sampleStep T s := by
    calc i * sampleStep T s < (i + 1) * sampleStep T s := by
          have := Nat.succ_le_of_lt (Nat.lt_succ_self i)
          nlinarith
      _ ≤ j * sampleStep T s := Nat.mul_le_mul_right _ (by omega)
  omega

/-! ## Claim theorems -/

/-- C1: the spec says each `constructPath` occurrence adds 1 to `vectorCount`
and leaves `inVectorSequence = false`.  The code does add 1, but the
`inVectorSequence = false` assignment of line 175 is a dead store: the
separate if statement at line 177 sends `constructPath` into its else branch
(line 185), which sets the flag back to true.  Consequently a lone
`constructPath` stream yields `vectorCount = 2` (the end-of-stream rule fires
on the spuriously open sequence), and `constructPath` followed by a
terminator also yields 2 instead of 1. -/
theorem c1_constructPath_double_count :
    countGraphicsObjects [Op.constructPath] = ⟨0, 2⟩ ∧
    countGraphicsObjects [Op.constructPath, Op.stroke] = ⟨0, 2⟩ ∧
    (List.foldl countStep (0, 0, false) [Op.constructPath]).2.2 = true := by
  exact ⟨by decide, by decide, by decide⟩

/-- C4: the classifier evaluates its three rules in fixed order with first
match winning: (1) `avgText < 30 ∧ 0 < avgImages ≤ 100` gives scan with
confidence `min(0.95, 0.7 + avgImages/100 * 0.25)`; (2) otherwise
`avgText < 30 ∧ avgImages = 0 ∧ avgVectors > 0` gives vector with confidence
`min(0.9, 0.7 + avgVectors/10 * 0.2)`; (3) any remaining input — including
`avgImages > 100` — gives text with confidence
`min(0.9, 0.6 + avgText/100 * 0.3)`. -/
theorem c4_classifier_rules (a b c : ℚ) :
    (a < 30 → 0 < b → b ≤ 100 →
      classifyJs (.num a) (.num b) (.num c) =
        (.scan, .num (min (95/100) (7/10 + b / 100 * (25/100))))) ∧
    (a < 30 → b = 0 → 0 < c →
      classifyJs (.num a) (.num b) (.num c) =
        (.vector, .num (min (9/10) (7/10 + c / 10 * (2/10))))) ∧
    (¬(a < 30 ∧ 0 < b ∧ b ≤ 100) → ¬(a < 30 ∧ b = 0 ∧ 0 < c) →
      classifyJs (.num a) (.num b) (.num c) =
        (.text, .num (min (9/10) (6/10 + a / 100 * (3/10))))) := by
  refine ⟨fun h1 h2 h3 => ?_, fun h1 h2 h3 => ?_, fun h1 h2 => ?_⟩
  · rw [classifyJs, if_pos]
    · simp [jsMin, jsAddL, jsMulC, jsDivC]
    · simp [jsLt, jsGtQ, jsLe, h1, h2, h3]
  · rw [classifyJs, if_neg, if_pos]
    · simp [jsMin, jsAddL, jsMulC, jsDivC]
    · simp [jsLt, jsGtQ, jsEqQ, h1, h2, h3]
    · simp [jsLt, jsGtQ, jsLe, h1, h2]
  · rw [classifyJs, if_neg, if_neg]
    · simp [jsMin, jsAddL, jsMulC, jsDivC]
    · simp only [Bool.and_eq_true, jsLt, jsGtQ, jsEqQ, decide_eq_true_eq]
      intro h
      exact h2 ⟨h.1.1, h.1.2, h.2⟩
    · simp only [Bool.and_eq_true, jsLt, jsGtQ, jsLe, decide_eq_true_eq]
      intro h
      exact h1 ⟨h.1.1, h.1.2, h.2⟩

/-- C4 witness: `avgText = 5`, `avgImages = 40`, `avgVectors = 0` is a scan
with confidence `0.7 + 0.4 * 0.25 = 0.8`. -/
theorem c4_witness :
    classifyJs (.num 5) (.num 40) (.num 0) = (.scan, .num (4/5)) := by
  have h := (c4_classifier_rules 5 40 0).1 (by norm_num) (by norm_num) (by norm_num)
  rw [h]
  norm_num

/-- C5: for `totalPages ≥ 1` and `sampleSize ≥ 1`, the sampler emits exactly
`min(sampleSize, totalPages)` indices, computed as
`min(1 + i*step, totalPages)`; the first is page 1, every index lies within
the document, the sequence is strictly increasing when
`totalPages ≥ sampleSize`, and for `totalPages = 97`, `sampleSize = 5` it is
`[1, 20, 39, 58, 77]`. -/
theorem c5_sampler (T s : Nat) (hT : 1 ≤ T) (hs : 1 ≤ s) :
    (samplePageIndices T s).length = min s T ∧
    (samplePageIndices T s)[0]? = some 1 ∧
    (∀ x ∈ samplePageIndices T s, 1 ≤ x ∧ x ≤ T) ∧
    (∀ i (h : i < (samplePageIndices T s).length),
      (samplePageIndices T s)[i] = min (1 + i * sampleStep T s) T) ∧
    (s ≤ T → (samplePageIndices T s).Pairwise (· < ·)) ∧
    samplePageIndices 97 5 = [1, 20, 39, 58, 77] := by
  refine ⟨samplePageIndices_length T s, ?_, samplePageIndices_bounds T s,
    fun i h => samplePageIndices_getElem T s i h, fun hsT => samplePageIndices_pairwise hs hsT, by decide⟩
  have hlen : 0 < (samplePageIndices T s).length := by
    rw [samplePageIndices_length]
    omega
  rw [List.getElem?_eq_getElem hlen, samplePageIndices_getElem]
  simp
  omega

/-- C5 witness at `totalPages = 97`, `sampleSize = 5`. -/
theorem c5_witness :
    (samplePageIndices 97 5).length = 5 ∧
    (samplePageIndices 97 5)[0]? = some 1 ∧
    (samplePageIndices 97 5).Pairwise (· < ·) := by
  have h := c5_sampler 97 5 (by decide) (by decide)
  exact ⟨by rw [h.1]; decide, h.2.1, h.2.2.2.2.1 (by decide)⟩

/-- C6: the dictionary-based page counter adds 1 to the image count for every
resolvable XObject entry declaring subtype Image, 1 to the vector count for
every resolvable Form entry, plus the number of Pattern keys and Shading
keys; an entry whose lookup throws contributes zero and does not abort the
rest of the page. -/
theorem c6_dictionary_counting :
    (∀ (entries : List (Except String XObjEntry)) (pc sc : Option Nat),
      countDictionaryPage (some ⟨some entries, pc, sc⟩) =
        (entries.countP (fun e =>
            match e with
            | .ok x => x.subtype == some XSubtype.image
            | .error _ => false),
         entries.countP (fun e =>
            match e with
            | .ok x => x.subtype == some XSubtype.form
            | .error _ => false) + pc.getD 0 + sc.getD 0)) ∧
    (∀ (l1 l2 : List (Except String XObjEntry)) (msg : String)
        (pc sc : Option Nat),
      countDictionaryPage (some ⟨some (l1 ++ .error msg :: l2), pc, sc⟩) =
        countDictionaryPage (some ⟨some (l1 ++ l2), pc, sc⟩)) := by
  have base : ∀ (entries : List (Except String XObjEntry)) (pc sc : Option Nat),
      countDictionaryPage (some ⟨some entries, pc, sc⟩) =
        (entries.countP (fun e =>
            match e with
            | .ok x => x.subtype == some XSubtype.image
            | .error _ => false),
         entries.countP (fun e =>
            match e with
            | .ok x => x.subtype == some XSubtype.form
            | .error _ => false) + pc.getD 0 + sc.getD 0) := by
    intro entries pc sc
    show (let xo := entries.foldl dictEntryStep (0, 0);
      ((xo.1, xo.2 + pc.getD 0 + sc.getD 0) : Nat × Nat)) = _
    rw [foldl_dictEntryStep entries 0 0]
    simp
  refine ⟨base, fun l1 l2 msg pc sc => ?_⟩
  rw [base, base]
  simp [List.countP_append, List.countP_cons]

/-- C7: a non-empty block of PATH-SEGMENT opcodes followed by one terminator
counts as exactly one vector object and no images; a terminator with no open
sequence counts nothing; an unterminated trailing segment block contributes
exactly one vector via the end-of-stream rule. -/
theorem c7_stream_counting (segs : List Op) (term : Op) (hne : segs ≠ [])
    (hsegs : ∀ op ∈ segs, op ∈ PATH_SEGMENTS) (hterm : term ∈ TERMINATORS) :
    countGraphicsObjects (segs ++ [term]) = ⟨0, 1⟩ ∧
    countGraphicsObjects [term] = ⟨0, 0⟩ ∧
    countGraphicsObjects segs = ⟨0, 1⟩ := by
  have hfold : segs.foldl countStep (0, 0, false) = (0, 0, true) := by
    rw [foldl_pathSegments segs hsegs 0 0 false]
    simp [List.isEmpty_iff, hne]
  refine ⟨?_, ?_, ?_⟩
  · show (let st := (segs ++ [term]).foldl countStep (0, 0, false);
      ({ imageCount := st.1,
         vectorCount := if st.2.2 then st.2.1 + 1 else st.2.1 } : GCounts)) = _
    rw [List.foldl_append, hfold]
    simp [(countStep_terminator hterm 0 0).1]
  · show (let st := [term].foldl countStep (0, 0, false);
      ({ imageCount := st.1,
         vectorCount := if st.2.2 then st.2.1 + 1 else st.2.1 } : GCounts)) = _
    rw [List.foldl_cons, (countStep_terminator hterm 0 0).2]
    rfl
  · show (let st := segs.foldl countStep (0, 0, false);
      ({ imageCount := st.1,
         vectorCount := if st.2.2 then st.2.1 + 1 else st.2.1 } : GCounts)) = _
    rw [hfold]
    rfl

/-- C7 witness: `[moveTo, stroke]`, `[stroke]` and `[moveTo]`. -/
theorem c7_witness :
    countGraphicsObjects ([Op.moveTo] ++ [Op.stroke]) = ⟨0, 1⟩ ∧
    countGraphicsObjects [Op.stroke] = ⟨0, 0⟩ ∧
    countGraphicsObjects [Op.moveTo] = ⟨0, 1⟩ :=
  c7_stream_counting [Op.moveTo] Op.stroke (by decide) (by decide) (by decide)

/-! Helper lemmas for the disposal accounting of the five drivers. -/

theorem destroys_data (doc : DocModel) :
    (extractPdfDataRun doc).destroys
      = if (extractPdfDataRun doc).result.isOk then 1 else 0 := by
  unfold extractPdfDataRun
  cases h : extractDataLoop doc.pages 0 0 0 <;> simp [Except.isOk, Except.toBool]

theorem destroys_streaming (doc : DocModel)
    (cb : Option (PageInfo → Except String Unit)) (extractText : Bool) :
    (extractPdfDataStreamingRun doc cb extractText).destroys
      = if (extractPdfDataStreamingRun doc cb extractText).result.isOk then 1 else 0 := by
  unfold extractPdfDataStreamingRun
  cases h : streamingLoop doc.pages.length cb extractText doc.pages 1 0 0 0 <;>
    simp [Except.isOk, Except.toBool]

theorem destroys_stats (doc : DocModel)
    (cb : Option (PageInfo → Except String Unit)) (extractText : Bool) :
    (extractPdfStatsRun doc cb extractText).destroys
      = if (extractPdfStatsRun doc cb extractText).result.isOk then 1 else 0 := by
  unfold extractPdfStatsRun
  cases h : statsLoop doc.pages.length cb extractText doc.pages 1 0 0 0 with
  | error e => simp [Except.isOk, Except.toBool]
  | ok r =>
    obtain ⟨t, i, v⟩ := r
    simp [Except.isOk, Except.toBool]

theorem destroys_analyze (doc : DocModel) (k : Nat) :
    (analyzePdfTypeRun doc k).destroys
      = if (analyzePdfTypeRun doc k).result.isOk then 1 else 0 := by
  unfold analyzePdfTypeRun
  cases h : analyzeLoop doc (samplePageIndices doc.pages.length k) 0 0 0 0 <;>
    simp [Except.isOk, Except.toBool]

/-- C2: the spec demands `pdf.destroy()` exactly once per run on success and
failure alike.  The code only disposes on the success path (no try/finally),
so what actually holds — for all five entry points, all documents and all
callback behaviours — is: exactly one disposal when the run succeeds, zero
disposals when it fails. -/
theorem c2_destroy_iff_success (fsRead : FsRead) (getDocument : GetDoc)
    (src : PdfSource) (cb : Option (PageInfo → Except String Unit))
    (extractText : Bool) (k : Nat)
    (prog : Option (ProgressStage → Except String Unit)) :
    ((extractPdfDataEntry fsRead getDocument src).destroys
      = if (extractPdfDataEntry fsRead getDocument src).result.isOk then 1 else 0) ∧
    ((extractPdfDataStreamingEntry fsRead getDocument src cb extractText).destroys
      = if (extractPdfDataStreamingEntry fsRead getDocument src cb extractText).result.isOk
        then 1 else 0) ∧
    ((extractPdfStatsEntry fsRead getDocument src cb extractText).destroys
      = if (extractPdfStatsEntry fsRead getDocument src cb extractText).result.isOk
        then 1 else 0) ∧
    ((analyzePdfTypeEntry fsRead getDocument src k).destroys
      = if (analyzePdfTypeEntry fsRead getDocument src k).result.isOk then 1 else 0) ∧
    ((extractPdfSmartEntry fsRead getDocument src prog).destroys
      = if (extractPdfSmartEntry fsRead getDocument src prog).result.isOk then 1 else 0) := by
  refine ⟨?_, ?_, ?_, ?_, ?_⟩
  · unfold extractPdfDataEntry
    cases hload : loadPdfData fsRead src with
    | error e => simp [Except.isOk, Except.toBool]
    | ok data =>
      dsimp only
      cases hdoc : getDocument data with
      | error e => simp [Except.isOk, Except.toBool]
      | ok doc =>
        dsimp only
        exact destroys_data doc
  · unfold extractPdfDataStreamingEntry
    cases hload : loadPdfData fsRead src with
    | error e => simp [Except.isOk, Except.toBool]
    | ok data =>
      dsimp only
      cases hdoc : getDocument data with
      | error e => simp [Except.isOk, Except.toBool]
      | ok doc =>
        dsimp only
        exact destroys_streaming doc cb extractText
  · unfold extractPdfStatsEntry
    cases hload : loadPdfData fsRead src with
    | error e => simp [Except.isOk, Except.toBool]
    | ok data =>
      dsimp only
      cases hdoc : getDocument data with
      | error e => simp [Except.isOk, Except.toBool]
      | ok doc =>
        dsimp only
        exact destroys_stats doc cb extractText
  · unfold analyzePdfTypeEntry
    cases hload : loadPdfData fsRead src with
    | error e => simp [Except.isOk, Except.toBool]
    | ok data =>
      dsimp only
      cases hdoc : getDocument data with
      | error e => simp [Except.isOk, Except.toBool]
      | ok doc =>
        dsimp only
        exact destroys_analyze doc k
  · unfold extractPdfSmartEntry
    cases hp1 : callProgress prog .analyzing with
    | error e => simp [Except.isOk, Except.toBool]
    | ok u =>
      dsimp only
      cases han : (analyzePdfTypeEntry fsRead getDocument src 5).result with
      | error e => simp [Except.isOk, Except.toBool]
      | ok analysis =>
        dsimp only
        cases hp2 : callProgress prog (.analyzed analysis.type analysis.confidence) with
        | error e => simp [Except.isOk, Except.toBool]
        | ok u2 =>
          dsimp only
          cases hload : loadPdfData fsRead src with
          | error e => simp [Except.isOk, Except.toBool]
          | ok data =>
            dsimp only
            cases hdoc : getDocument data with
            | error e => simp [Except.isOk, Except.toBool]
            | ok doc =>
              dsimp only
              cases hsl : smartLoop doc.pages.length prog doc.pages 1 0 0 0 with
              | error e => simp [Except.isOk, Except.toBool]
              | ok r =>
                obtain ⟨t, i, v⟩ := r
                simp [Except.isOk, Except.toBool]

/-- C2 counterexample: on a one-page document whose text extraction throws,
`extractPdfData` propagates the error and never calls `pdf.destroy()`
(0 disposals, not the 1 per run the claim demands on failure paths). -/
theorem c2_counterexample :
    (extractPdfDataRun docTextFails).result = .error "boom" ∧
    (extractPdfDataRun docTextFails).destroys = 0 :=
  ⟨rfl, rfl⟩

/-! Helper lemmas for error propagation through the page loops. -/

/-- A fully healthy page is stepped over by the `extractPdfData` loop. -/
theorem extractDataLoop_skip (pre : List PageModel)
    (hpre : ∀ q ∈ pre, q.load.isOk = true ∧ q.textItemCount.isOk = true ∧
      q.opList.isOk = true) (rest : List PageModel) :
    ∀ t i v, ∃ t2 i2 v2,
      extractDataLoop (pre ++ rest) t i v = extractDataLoop rest t2 i2 v2 := by
  induction pre with
  | nil => intro t i v; exact ⟨t, i, v, rfl⟩
  | cons q pre ih =>
    intro t i v
    obtain ⟨hl, ht, ho⟩ := hpre q (by simp)
    obtain ⟨u, hlo⟩ := exceptOk_exists hl
    obtain ⟨pt, hto⟩ := exceptOk_exists ht
    obtain ⟨ops, hoo⟩ := exceptOk_exists ho
    obtain ⟨t2, i2, v2, hrec⟩ :=
      ih (fun r hr => hpre r (by simp [hr])) (t + pt)
        (i + (countGraphicsObjects ops).imageCount)
        (v + (countGraphicsObjects ops).vectorCount)
    refine ⟨t2, i2, v2, ?_⟩
    rw [List.cons_append]
    rw [show extractDataLoop (q :: (pre ++ rest)) t i v
        = extractDataLoop (pre ++ rest) (t + pt)
            (i + (countGraphicsObjects ops).imageCount)
            (v + (countGraphicsObjects ops).vectorCount) by
      simp [extractDataLoop, hlo, hto, hoo]]
    exact hrec

/-- A fully healthy page is stepped over by the streaming loop when no
callback is installed. -/
theorem streamingLoop_skip (tot : Nat) (pre : List PageModel)
    (hpre : ∀ q ∈ pre, q.load.isOk = true ∧ q.textItemCount.isOk = true ∧
      q.opList.isOk = true) (rest : List PageModel) :
    ∀ n t i v, ∃ n2 t2 i2 v2,
      streamingLoop tot none true (pre ++ rest) n t i v
        = streamingLoop tot none true rest n2 t2 i2 v2 := by
  induction pre with
  | nil => intro n t i v; exact ⟨n, t, i, v, rfl⟩
  | cons q pre ih =>
    intro n t i v
    obtain ⟨hl, ht, ho⟩ := hpre q (by simp)
    obtain ⟨u, hlo⟩ := exceptOk_exists hl
    obtain ⟨pt, hto⟩ := exceptOk_exists ht
    obtain ⟨ops, hoo⟩ := exceptOk_exists ho
    obtain ⟨n2, t2, i2, v2, hrec⟩ :=
      ih (fun r hr => hpre r (by simp [hr])) (n + 1) (t + pt)
        (i + (countGraphicsObjects ops).imageCount)
        (v + (countGraphicsObjects ops).vectorCount)
    refine ⟨n2, t2, i2, v2, ?_⟩
    rw [List.cons_append]
    rw [show streamingLoop tot none true (q :: (pre ++ rest)) n t i v
        = streamingLoop tot none true (pre ++ rest) (n + 1) (t + pt)
            (i + (countGraphicsObjects ops).imageCount)
            (v + (countGraphicsObjects ops).vectorCount) by
      simp [streamingLoop, hlo, hto, hoo, callPageCb]]
    exact hrec

/-- A fully healthy page is stepped over by the stats loop when no callback
is installed. -/
theorem statsLoop_skip (tot : Nat) (pre : List PageModel)
    (hpre : ∀ q ∈ pre, q.load.isOk = true ∧ q.textItemCount.isOk = true ∧
      q.opList.isOk = true) (rest : List PageModel) :
    ∀ n t i v, ∃ n2 t2 i2 v2,
      statsLoop tot none true (pre ++ rest) n t i v
        = statsLoop tot none true rest n2 t2 i2 v2 := by
  induction pre with
  | nil => intro n t i v; exact ⟨n, t, i, v, rfl⟩
  | cons q pre ih =>
    intro n t i v
    obtain ⟨hl, ht, ho⟩ := hpre q (by simp)
    obtain ⟨u, hlo⟩ := exceptOk_exists hl
    obtain ⟨pt, hto⟩ := exceptOk_exists ht
    obtain ⟨ops, hoo⟩ := exceptOk_exists ho
    obtain ⟨n2, t2, i2, v2, hrec⟩ :=
      ih (fun r hr => hpre r (by simp [hr])) (n + 1) (t + pt)
        (i + (countGraphicsObjects ops).imageCount)
        (v + (countGraphicsObjects ops).vectorCount)
    refine ⟨n2, t2, i2, v2, ?_⟩
    rw [List.cons_append]
    rw [show statsLoop tot none true (q :: (pre ++ rest)) n t i v
        = statsLoop tot none true (pre ++ rest) (n + 1) (t + pt)
            (i + (countGraphicsObjects ops).imageCount)
            (v + (countGraphicsObjects ops).vectorCount) by
      simp [statsLoop, hlo, hto, hoo, callPageCb]]
    exact hrec

/-- The analysis sampling loop never fails when every page of the document
loads and yields its text items, whatever the operator lists do: the
`try { getOperatorList ... } catch (e) { }` swallows that failure. -/
theorem analyzeLoop_ok (doc : DocModel)
    (hdoc : ∀ q ∈ doc.pages, q.load.isOk = true ∧ q.textItemCount.isOk = true) :
    ∀ idxs : List Nat, (∀ idx ∈ idxs, 1 ≤ idx ∧ idx ≤ doc.pages.length) →
      ∀ t i v g, (analyzeLoop doc idxs t i v g).isOk = true := by
  intro idxs
  induction idxs with
  | nil => intro _ t i v g; rfl
  | cons idx rest ih =>
    intro hb t i v g
    obtain ⟨h1, h2⟩ := hb idx (by simp)
    have hidx : idx - 1 < doc.pages.length := by omega
    have hget : doc.pages[idx - 1]? = some (doc.pages[idx - 1]) :=
      List.getElem?_eq_getElem hidx
    obtain ⟨hl, ht⟩ := hdoc _ (List.getElem_mem hidx)
    obtain ⟨u, hlo⟩ := exceptOk_exists hl
    obtain ⟨pt, hto⟩ := exceptOk_exists ht
    have hpage : getPage doc idx = .ok (doc.pages[idx - 1]) := by
      simp [getPage, hget, hlo]
    have hrest : ∀ x ∈ rest, 1 ≤ x ∧ x ≤ doc.pages.length :=
      fun x hx => hb x (by simp [hx])
    cases hop : (doc.pages[idx - 1]).opList with
    | error e =>
      have harm : analyzePage (doc.pages[idx - 1]) = .ok (pt, 0, 0, false) := by
        simp [analyzePage, hto, hop]
      rw [show analyzeLoop doc (idx :: rest) t i v g
          = analyzeLoop doc rest (t + pt) (i + 0) (v + 0) (g + 0) by
        simp [analyzeLoop, hpage, harm]]
      exact ih hrest _ _ _ _
    | ok ops =>
      have harm : analyzePage (doc.pages[idx - 1])
          = .ok (pt, (countGraphicsObjects ops).imageCount,
            (countGraphicsObjects ops).vectorCount,
            decide (0 < (countGraphicsObjects ops).imageCount)
              && largeImageFlag (doc.pages[idx - 1]).resources) := by
        simp [analyzePage, hto, hop]
      rw [show analyzeLoop doc (idx :: rest) t i v g
          = analyzeLoop doc rest (t + pt)
              (i + (countGraphicsObjects ops).imageCount)
              (v + (countGraphicsObjects ops).vectorCount)
              (g + if decide (0 < (countGraphicsObjects ops).imageCount)
                && largeImageFlag (doc.pages[idx - 1]).resources then 1 else 0) by
        simp [analyzeLoop, hpage, harm]]
      exact ih hrest _ _ _ _

/-- C3: a page's instruction-stream materialization failure is surfaced by
the extraction drivers (`extractPdfData`, `extractPdfDataStreaming`,
`extractPdfStats`): with all earlier pages healthy, the run returns the
error of the failing `getOperatorList` call.  The claim is wrong about the
analysis driver: `analyzePdfType` wraps `getOperatorList` in an empty catch
and succeeds whenever every page loads and yields text items, whatever its
operator list does (the failing page contributes zero stream counts). -/
theorem c3_oplist_failure_handling :
    (∀ (pre post : List PageModel) (p : PageModel) (t : Nat) (msg : String),
      (∀ q ∈ pre, q.load.isOk = true ∧ q.textItemCount.isOk = true ∧
        q.opList.isOk = true) →
      p.load = .ok () → p.textItemCount = .ok t → p.opList = .error msg →
      (extractPdfDataRun ⟨pre ++ p :: post⟩).result = .error msg ∧
      (extractPdfDataStreamingRun ⟨pre ++ p :: post⟩ none true).result = .error msg ∧
      (extractPdfStatsRun ⟨pre ++ p :: post⟩ none true).result = .error msg) ∧
    (∀ (doc : DocModel) (k : Nat),
      (∀ q ∈ doc.pages, q.load.isOk = true ∧ q.textItemCount.isOk = true) →
      (analyzePdfTypeRun doc k).result.isOk = true) := by
  constructor
  · intro pre post p t msg hpre hl ht ho
    refine ⟨?_, ?_, ?_⟩
    · obtain ⟨t2, i2, v2, heq⟩ := extractDataLoop_skip pre hpre (p :: post) 0 0 0
      have hstop : extractDataLoop (p :: post) t2 i2 v2 = .error msg := by
        simp [extractDataLoop, hl, ht, ho]
      unfold extractPdfDataRun
      rw [show (DocModel.mk (pre ++ p :: post)).pages = pre ++ p :: post from rfl,
        heq, hstop]
    · obtain ⟨n2, t2, i2, v2, heq⟩ :=
        streamingLoop_skip (pre ++ p :: post).length pre hpre (p :: post) 1 0 0 0
      have hstop : streamingLoop (pre ++ p :: post).length none true (p :: post)
          n2 t2 i2 v2 = .error msg := by
        simp [streamingLoop, hl, ht, ho]
      unfold extractPdfDataStreamingRun
      rw [show (DocModel.mk (pre ++ p :: post)).pages = pre ++ p :: post from rfl,
        heq, hstop]
    · obtain ⟨n2, t2, i2, v2, heq⟩ :=
        statsLoop_skip (pre ++ p :: post).length pre hpre (p :: post) 1 0 0 0
      have hstop : statsLoop (pre ++ p :: post).length none true (p :: post)
          n2 t2 i2 v2 = .error msg := by
        simp [statsLoop, hl, ht, ho]
      unfold extractPdfStatsRun
      rw [show (DocModel.mk (pre ++ p :: post)).pages = pre ++ p :: post from rfl,
        heq, hstop]
  · intro doc k hdoc
    have hloop := analyzeLoop_ok doc hdoc
      (samplePageIndices doc.pages.length k)
      (samplePageIndices_bounds doc.pages.length k) 0 0 0 0
    unfold analyzePdfTypeRun
    obtain ⟨tot, htot⟩ := exceptOk_exists hloop
    rw [htot]
    rfl

/-- C3 counterexample: on a one-page document whose `getOperatorList` throws
while page load and text extraction succeed, `analyzePdfType` succeeds
(classifying the document as text) instead of failing as the claim requires
of every analysis run. -/
theorem c3_counterexample :
    (analyzePdfTypeRun docOpsFail 5).result.isOk = true ∧
    (analyzePdfTypeRun docOpsFail 5).result.map TypeAnalysis.type
      = .ok PdfType.text := by
  have h : (analyzePdfTypeRun docOpsFail 5).result
      = .ok (buildAnalysis 1 1 (0, 0, 0, 0)) := rfl
  rw [h]
  refine ⟨rfl, ?_⟩
  have ht : (buildAnalysis 1 1 (0, 0, 0, 0)).type = PdfType.text := by
    show (classifyJs (jsAvg 0 1) (jsAvg 0 1) (jsAvg 0 1)).1 = PdfType.text
    norm_num [jsAvg, classifyJs, jsLt, jsGtQ, jsLe, jsEqQ]
  have hm : Except.map TypeAnalysis.type
      (Except.ok (buildAnalysis 1 1 (0, 0, 0, 0)) : Except String TypeAnalysis)
      = Except.ok (buildAnalysis 1 1 (0, 0, 0, 0)).type := rfl
  rw [hm, ht]

/-- C3 witness: the propagation conjunct at a concrete one-page document and
the tolerance conjunct at `docOpsFail`. -/
theorem c3_witness :
    (extractPdfDataRun ⟨[] ++ PageModel.mk (.ok ()) (.ok 0) (.error "ops-fail") none :: []⟩).result
      = .error "ops-fail" ∧
    (analyzePdfTypeRun docOpsFail 5).result.isOk = true := by
  have h := c3_oplist_failure_handling
  refine ⟨(h.1 [] [] (PageModel.mk (.ok ()) (.ok 0) (.error "ops-fail") none)
    0 "ops-fail" (by simp) rfl rfl rfl).1, h.2 docOpsFail 5 ?_⟩
  intro q hq
  have : q = PageModel.mk (.ok ()) (.ok 0) (.error "ops-fail") none := by
    simpa [docOpsFail] using hq
  rw [this]
  exact ⟨rfl, rfl⟩

/-- On non-NaN, non-negative averages every classifier branch produces a
numeric confidence between its base value and its cap, hence within [0,1]. -/
theorem classify_confidence_bounds (a b c : ℚ) (ha : 0 ≤ a) (hb : 0 ≤ b)
    (hc : 0 ≤ c) :
    ∃ q : ℚ, (classifyJs (.num a) (.num b) (.num c)).2 = .num q ∧
      0 ≤ q ∧ q ≤ 1 := by
  unfold classifyJs
  split_ifs with h1 h2
  · refine ⟨min (95/100) (7/10 + b / 100 * (25/100)),
      by simp [jsMin, jsAddL, jsMulC, jsDivC], ?_, ?_⟩
    · exact le_min (by norm_num) (by positivity)
    · exact (min_le_left _ _).trans (by norm_num)
  · refine ⟨min (9/10) (7/10 + c / 10 * (2/10)),
      by simp [jsMin, jsAddL, jsMulC, jsDivC], ?_, ?_⟩
    · exact le_min (by norm_num) (by positivity)
    · exact (min_le_left _ _).trans (by norm_num)
  · refine ⟨min (9/10) (6/10 + a / 100 * (3/10)),
      by simp [jsMin, jsAddL, jsMulC, jsDivC], ?_, ?_⟩
    · exact le_min (by norm_num) (by positivity)
    · exact (min_le_left _ _).trans (by norm_num)

/-- C8: for `samplePages ≥ 1` on a document with at least one page, a
successful `analyzePdfType` yields a numeric confidence within [0,1],
`sampledPages ≤ totalPages`, and non-negative numeric estimated totals.
Both restrictions are forced: the claim as stated also covers
`samplePages = 0`, and a zero-page document is sampled over
`min(samplePages, 0) = 0` pages at any `samplePages`; in either case the
code divides 0 by 0 and every derived figure, confidence included, is
NaN — see the counterexample. -/
theorem c8_invariants (doc : DocModel) (k : Nat) (hk : 1 ≤ k)
    (hne : doc.pages ≠ []) (a : TypeAnalysis)
    (ha : (analyzePdfTypeRun doc k).result = .ok a) :
    (∃ q : ℚ, a.confidence = .num q ∧ 0 ≤ q ∧ q ≤ 1) ∧
    a.stats.sampledPages ≤ a.stats.totalPages ∧
    (∃ qi : ℚ, a.stats.estimatedTotalImages = .num qi ∧ 0 ≤ qi) ∧
    (∃ qv : ℚ, a.stats.estimatedTotalVectors = .num qv ∧ 0 ≤ qv) := by
  unfold analyzePdfTypeRun at ha
  cases htot : analyzeLoop doc (samplePageIndices doc.pages.length k) 0 0 0 0 with
  | error e => rw [htot] at ha; exact absurd ha (by simp)
  | ok tot =>
    rw [htot] at ha
    have hba : buildAnalysis doc.pages.length (pagesToAnalyze doc.pages.length k)
        tot = a := by
      have : Except.ok (buildAnalysis doc.pages.length
          (pagesToAnalyze doc.pages.length k) tot) = Except.ok a := ha
      exact Except.ok.inj this
    subst hba
    have hlen : 0 < doc.pages.length := List.length_pos.mpr hne
    have hs0 : pagesToAnalyze doc.pages.length k ≠ 0 := by
      simp only [pagesToAnalyze]
      omega
    have havg : ∀ n : Nat, jsAvg n (pagesToAnalyze doc.pages.length k)
        = .num ((n : ℚ) / (pagesToAnalyze doc.pages.length k : ℚ)) :=
      fun n => by simp [jsAvg, hs0]
    have hnn : ∀ n : Nat,
        (0 : ℚ) ≤ (n : ℚ) / (pagesToAnalyze doc.pages.length k : ℚ) :=
      fun n => by positivity
    refine ⟨?_, ?_, ?_, ?_⟩
    · have hconf : (buildAnalysis doc.pages.length
          (pagesToAnalyze doc.pages.length k) tot).confidence
          = (classifyJs (jsAvg tot.1 (pagesToAnalyze doc.pages.length k))
              (jsAvg tot.2.1 (pagesToAnalyze doc.pages.length k))
              (jsAvg tot.2.2.1 (pagesToAnalyze doc.pages.length k))).2 := rfl
      rw [hconf, havg, havg, havg]
      exact classify_confidence_bounds _ _ _ (hnn _) (hnn _) (hnn _)
    · show pagesToAnalyze doc.pages.length k ≤ doc.pages.length
      exact min_le_right _ _
    · have hest : (buildAnalysis doc.pages.length
          (pagesToAnalyze doc.pages.length k) tot).stats.estimatedTotalImages
          = jsRound (jsMulC (jsAvg tot.2.1 (pagesToAnalyze doc.pages.length k))
              (doc.pages.length : ℚ)) := rfl
      rw [hest, havg]
      refine ⟨_, rfl, ?_⟩
      have : (0 : ℚ) ≤ (tot.2.1 : ℚ) / (pagesToAnalyze doc.pages.length k : ℚ)
          * (doc.pages.length : ℚ) := by positivity
      exact_mod_cast Int.floor_nonneg.mpr (by linarith)
    · have hest : (buildAnalysis doc.pages.length
          (pagesToAnalyze doc.pages.length k) tot).stats.estimatedTotalVectors
          = jsRound (jsMulC (jsAvg tot.2.2.1 (pagesToAnalyze doc.pages.length k))
              (doc.pages.length : ℚ)) := rfl
      rw [hest, havg]
      refine ⟨_, rfl, ?_⟩
      have : (0 : ℚ) ≤ (tot.2.2.1 : ℚ) / (pagesToAnalyze doc.pages.length k : ℚ)
          * (doc.pages.length : ℚ) := by positivity
      exact_mod_cast Int.floor_nonneg.mpr (by linarith)

/-- C8 counterexample: with `samplePages = 0` (an allowed uint option value)
the sampled-page count is 0, the averages are 0/0 = NaN, and both the
confidence and the estimated totals come out NaN — not within [0,1] and not
non-negative numbers as the claim requires.  A zero-page document fails the
claim the same way even with `samplePages = 1`: the run still succeeds, with
0 sampled pages and NaN confidence and estimates. -/
theorem c8_counterexample :
    (analyzePdfTypeRun docEmptyPage 0).result.map TypeAnalysis.confidence
      = .ok JsVal.nan ∧
    (analyzePdfTypeRun docEmptyPage 0).result.map
      (fun a => a.stats.estimatedTotalImages) = .ok JsVal.nan ∧
    (analyzePdfTypeRun ⟨[]⟩ 1).result.isOk = true ∧
    (analyzePdfTypeRun ⟨[]⟩ 1).result.map TypeAnalysis.confidence
      = .ok JsVal.nan ∧
    (analyzePdfTypeRun ⟨[]⟩ 1).result.map
      (fun a => a.stats.estimatedTotalImages) = .ok JsVal.nan :=
  ⟨rfl, rfl, rfl, rfl, rfl⟩

/-- C8 witness: the invariants instantiated on a clean one-page document with
`samplePages = 1`. -/
theorem c8_witness :
    (∃ q : ℚ, (buildAnalysis 1 1 (0, 0, 0, 0)).confidence = .num q ∧
      0 ≤ q ∧ q ≤ 1) ∧
    (buildAnalysis 1 1 (0, 0, 0, 0)).stats.sampledPages
      ≤ (buildAnalysis 1 1 (0, 0, 0, 0)).stats.totalPages ∧
    (∃ qi : ℚ, (buildAnalysis 1 1 (0, 0, 0, 0)).stats.estimatedTotalImages
      = .num qi ∧ 0 ≤ qi) ∧
    (∃ qv : ℚ, (buildAnalysis 1 1 (0, 0, 0, 0)).stats.estimatedTotalVectors
      = .num qv ∧ 0 ≤ qv) :=
  c8_invariants docEmptyPage 1 (by omega) (by simp [docEmptyPage])
    (buildAnalysis 1 1 (0, 0, 0, 0)) rfl

/-- A successful smart full pass accumulates exactly the dictionary-based
per-page counts (it never touches an operator list). -/
theorem smartLoop_counts (tot : Nat)
    (cb : Option (ProgressStage → Except String Unit)) :
    ∀ (pages : List PageModel) (n t i v : Nat) (t2 i2 v2 : Nat),
      smartLoop tot cb pages n t i v = .ok (t2, i2, v2) →
      i2 = i + (pages.map (fun p => (countDictionaryPage p.resources).1)).sum ∧
      v2 = v + (pages.map (fun p => (countDictionaryPage p.resources).2)).sum := by
  intro pages
  induction pages with
  | nil =>
    intro n t i v t2 i2 v2 h
    have h2 : (t, i, v) = (t2, i2, v2) := Except.ok.inj h
    obtain ⟨rfl, rfl, rfl⟩ : t = t2 ∧ i = i2 ∧ v = v2 := by simpa using h2
    simp
  | cons p rest ih =>
    intro n t i v t2 i2 v2 h
    cases hl : p.load with
    | error e => rw [show smartLoop tot cb (p :: rest) n t i v = .error e by
        simp [smartLoop, hl]] at h; cases h
    | ok u =>
      cases ht : p.textItemCount with
      | error e => rw [show smartLoop tot cb (p :: rest) n t i v = .error e by
          simp [smartLoop, hl, ht]] at h; cases h
      | ok pt =>
        cases hcb : callProgress cb (.extracting n tot) with
        | error e => rw [show smartLoop tot cb (p :: rest) n t i v = .error e by
            simp [smartLoop, hl, ht, hcb]] at h; cases h
        | ok u2 =>
          rw [show smartLoop tot cb (p :: rest) n t i v
              = smartLoop tot cb rest (n + 1) (t + pt)
                  (i + (countDictionaryPage p.resources).1)
                  (v + (countDictionaryPage p.resources).2) by
            simp [smartLoop, hl, ht, hcb]] at h
          obtain ⟨hi, hv⟩ := ih (n + 1) (t + pt)
            (i + (countDictionaryPage p.resources).1)
            (v + (countDictionaryPage p.resources).2) t2 i2 v2 h
          constructor
          · rw [hi]; simp; omega
          · rw [hv]; simp; omega

/-- C9: smart extraction composes exactly as specified — when
`extractPdfSmart` succeeds, the nested `analyzePdfType` over the fixed
5-page sample succeeded, the returned `pdfType` and `confidence` are exactly
its `type` and `confidence`, and the returned counts are the full-document
dictionary-strategy totals (so the detected type never changes the counting
strategy and the instruction-stream counter is never used). -/
theorem c9_smart_composition (fsRead : FsRead) (getDocument : GetDoc)
    (src : PdfSource) (cb : Option (ProgressStage → Except String Unit))
    (data : List Nat) (doc : DocModel) (r : SmartResult)
    (hload : loadPdfData fsRead src = .ok data)
    (hdoc : getDocument data = .ok doc)
    (hr : (extractPdfSmartEntry fsRead getDocument src cb).result = .ok r) :
    ∃ a, (analyzePdfTypeEntry fsRead getDocument src 5).result = .ok a ∧
      r.pdfType = a.type ∧ r.confidence = a.confidence ∧
      r.imageCount = dictImagesTotal doc ∧
      r.vectorCount = dictVectorsTotal doc ∧
      r.pages = doc.pages.length := by
  unfold extractPdfSmartEntry at hr
  cases hp1 : callProgress cb .analyzing with
  | error e => rw [hp1] at hr; exact absurd hr (by simp)
  | ok u =>
    rw [hp1] at hr
    dsimp only at hr
    cases han : (analyzePdfTypeEntry fsRead getDocument src 5).result with
    | error e => rw [han] at hr; exact absurd hr (by simp)
    | ok analysis =>
      rw [han] at hr
      dsimp only at hr
      cases hp2 : callProgress cb (.analyzed analysis.type analysis.confidence) with
      | error e => rw [hp2] at hr; exact absurd hr (by simp)
      | ok u2 =>
        rw [hp2] at hr
        dsimp only at hr
        rw [hload] at hr
        dsimp only at hr
        rw [hdoc] at hr
        dsimp only at hr
        cases hsl : smartLoop doc.pages.length cb doc.pages 1 0 0 0 with
        | error e => rw [hsl] at hr; exact absurd hr (by simp)
        | ok triple =>
          obtain ⟨t, i, v⟩ := triple
          rw [hsl] at hr
          dsimp only at hr
          have hrv := Except.ok.inj hr
          obtain ⟨hi, hv⟩ :=
            smartLoop_counts doc.pages.length cb doc.pages 1 0 0 0 t i v hsl
          refine ⟨analysis, rfl, ?_, ?_, ?_, ?_, ?_⟩ <;> rw [← hrv]
          · simp [hi, dictImagesTotal]
          · simp [hv, dictVectorsTotal]

/-- C9 witness: the composition instantiated on a clean one-page document
reached through concrete collaborators. -/
theorem c9_witness :
    ∃ a, (analyzePdfTypeEntry fsReadStub getDocStub (.buffer []) 5).result
        = .ok a ∧
      (SmartResult.mk 0 0 0 1 (buildAnalysis 1 1 (0, 0, 0, 0)).type
        (buildAnalysis 1 1 (0, 0, 0, 0)).confidence).pdfType = a.type ∧
      (SmartResult.mk 0 0 0 1 (buildAnalysis 1 1 (0, 0, 0, 0)).type
        (buildAnalysis 1 1 (0, 0, 0, 0)).confidence).confidence = a.confidence ∧
      (SmartResult.mk 0 0 0 1 (buildAnalysis 1 1 (0, 0, 0, 0)).type
        (buildAnalysis 1 1 (0, 0, 0, 0)).confidence).imageCount
        = dictImagesTotal docEmptyPage ∧
      (SmartResult.mk 0 0 0 1 (buildAnalysis 1 1 (0, 0, 0, 0)).type
        (buildAnalysis 1 1 (0, 0, 0, 0)).confidence).vectorCount
        = dictVectorsTotal docEmptyPage ∧
      (SmartResult.mk 0 0 0 1 (buildAnalysis 1 1 (0, 0, 0, 0)).type
        (buildAnalysis 1 1 (0, 0, 0, 0)).confidence).pages
        = docEmptyPage.pages.length :=
  c9_smart_composition fsReadStub getDocStub (.buffer []) none [] docEmptyPage
    (SmartResult.mk 0 0 0 1 (buildAnalysis 1 1 (0, 0, 0, 0)).type
      (buildAnalysis 1 1 (0, 0, 0, 0)).confidence) rfl rfl rfl

/-- C10: although the public type declarations offer
`PdfSource = string | Buffer | Uint8Array`, every exported entry point given
a plain `Uint8Array` (not a Node.js `Buffer`) fails with the loader's
'Invalid source' error before any document is opened or page processed: the
outcome is the same for every file system and parser collaborator, no
document is ever disposed, and for `extractPdfSmart` the failure surfaces as
soon as the (well-behaved) progress callback returns. -/
theorem c10_invalid_source (fsRead : FsRead) (getDocument : GetDoc)
    (bytes : List Nat) (cb : Option (PageInfo → Except String Unit))
    (extractText : Bool) (k : Nat)
    (prog : Option (ProgressStage → Except String Unit)) :
    extractPdfDataEntry fsRead getDocument (.uint8array bytes)
      = ⟨.error invalidSourceMsg, 0⟩ ∧
    extractPdfDataStreamingEntry fsRead getDocument (.uint8array bytes) cb
      extractText = ⟨.error invalidSourceMsg, 0⟩ ∧
    extractPdfStatsEntry fsRead getDocument (.uint8array bytes) cb extractText
      = ⟨.error invalidSourceMsg, 0⟩ ∧
    analyzePdfTypeEntry fsRead getDocument (.uint8array bytes) k
      = ⟨.error invalidSourceMsg, 0⟩ ∧
    ((∀ s, callProgress prog s = .ok ()) →
      extractPdfSmartEntry fsRead getDocument (.uint8array bytes) prog
        = ⟨.error invalidSourceMsg, 0⟩) := by
  refine ⟨rfl, rfl, rfl, rfl, fun hprog => ?_⟩
  unfold extractPdfSmartEntry
  rw [hprog .analyzing]
  rfl

/-- C10 witness: concrete collaborators, a concrete byte array and no
progress callback. -/
theorem c10_witness :
    extractPdfSmartEntry fsReadStub getDocStub (.uint8array [1, 2, 3]) none
      = ⟨.error invalidSourceMsg, 0⟩ ∧
    extractPdfDataEntry fsReadStub getDocStub (.uint8array [1, 2, 3])
      = ⟨.error invalidSourceMsg, 0⟩ :=
  ⟨(c10_invalid_source fsReadStub getDocStub [1, 2, 3] none true 5 none).2.2.2.2
    (fun _ => rfl),
   (c10_invalid_source fsReadStub getDocStub [1, 2, 3] none true 5 none).1⟩

end PdfLoader
